import Mathlib

/-!
Verification of `storage_comparison.py` (YoroStandalone).

The script is a closed-form storage estimator: two pure functions
(`estimate_storage_old_approach`, `estimate_storage_chunked_approach`)
computing estimated peak disk usage in megabytes, plus a reporter that
compares them over four fixed scenarios.

Embedding choices:
* Python's exact-real arithmetic on these inputs is modelled over `ℚ`
  (the constants 1.2 and 0.1 are the rationals 12/10 and 1/10).
* Python's `int()` conversion truncates toward zero; it is modelled by
  `pyInt` below.
* Python's `//` on integers is floor division, modelled by `Int.fdiv`.
* The dictionaries returned by the two functions are modelled as the
  structures `OldEstimate` and `ChunkedEstimate`, one field per key.
* Python raises `ZeroDivisionError` on `//` with divisor 0; the fallible
  wrapper `estimate_storage_chunked_checked` returns `none` exactly in
  that case and `some` of the total result otherwise.
-/

/-- Python `int()` on a rational number: truncation toward zero. -/
def pyInt (q : ℚ) : ℤ := if 0 ≤ q then ⌊q⌋ else ⌈q⌉

/-- Record returned by `estimate_storage_old_approach` (one field per
dictionary key in the Python source). -/
structure OldEstimate where
  total_frames : ℤ
  frame_size_mb : ℚ
  extracted_frames_mb : ℚ
  sbs_frames_mb : ℚ
  total_peak_mb : ℚ
deriving DecidableEq

/-- Record returned by `estimate_storage_chunked_approach` (one field per
dictionary key in the Python source). -/
structure ChunkedEstimate where
  total_frames : ℤ
  total_chunks : ℤ
  chunk_size : ℤ
  frame_size_mb : ℚ
  peak_chunk_mb : ℚ
  max_chunk_videos_mb : ℚ
  total_peak_mb : ℚ
deriving DecidableEq

/-- Embedding of `estimate_storage_old_approach(width, height, fps,
duration_seconds)` from `storage_comparison.py`, lines 12-34. -/
def estimate_storage_old_approach (width height : ℤ) (fps duration_seconds : ℚ) :
    OldEstimate :=
  let total_frames : ℤ := pyInt (fps * duration_seconds)
  let frame_size_mb : ℚ := ((width : ℚ) * (height : ℚ) * 3 * (12/10)) / (1024 * 1024)
  let extracted_frames_mb : ℚ := frame_size_mb * (total_frames : ℚ)
  let sbs_frames_mb : ℚ := (frame_size_mb * 2) * (total_frames : ℚ)
  let total_peak_mb : ℚ := extracted_frames_mb + sbs_frames_mb
  ⟨total_frames, frame_size_mb, extracted_frames_mb, sbs_frames_mb, total_peak_mb⟩

/-- Embedding of `estimate_storage_chunked_approach(width, height, fps,
duration_seconds, chunk_size)` from `storage_comparison.py`, lines 36-68. -/
def estimate_storage_chunked_approach (width height : ℤ) (fps duration_seconds : ℚ)
    (chunk_size : ℤ) : ChunkedEstimate :=
  let total_frames : ℤ := pyInt (fps * duration_seconds)
  let total_chunks : ℤ := Int.fdiv (total_frames + chunk_size - 1) chunk_size
  let frame_size_mb : ℚ := ((width : ℚ) * (height : ℚ) * 3 * (12/10)) / (1024 * 1024)
  let chunk_extracted_mb : ℚ := frame_size_mb * (chunk_size : ℚ)
  let chunk_sbs_mb : ℚ := (frame_size_mb * 2) * (chunk_size : ℚ)
  let chunk_video_mb : ℚ := chunk_sbs_mb * (1/10)
  let peak_chunk_mb : ℚ := chunk_extracted_mb + chunk_sbs_mb + chunk_video_mb
  let max_chunk_videos_mb : ℚ := chunk_video_mb * (total_chunks : ℚ)
  let final_video_mb : ℚ := max_chunk_videos_mb
  let total_peak_mb : ℚ := max peak_chunk_mb (max_chunk_videos_mb + final_video_mb)
  ⟨total_frames, total_chunks, chunk_size, frame_size_mb, peak_chunk_mb,
    max_chunk_videos_mb, total_peak_mb⟩

/-- Fallible version of the chunked estimator: Python raises
`ZeroDivisionError` at line 39 exactly when `chunk_size = 0` (the `//`
divisor); every other input returns normally. -/
def estimate_storage_chunked_checked (width height : ℤ) (fps duration_seconds : ℚ)
    (chunk_size : ℤ) : Option ChunkedEstimate :=
  if chunk_size = 0 then none
  else some (estimate_storage_chunked_approach width height fps duration_seconds chunk_size)

/-- Savings percentage as printed by `print_comparison` (line 111 / 115):
`(old - new) / old * 100`. -/
def savings_percent (oldPeak newPeak : ℚ) : ℚ := (oldPeak - newPeak) / oldPeak * 100

/-! Definitional projection lemmas: each field of the two records, written in
terms of the other fields exactly as the Python source computes it. All hold
by `rfl`. -/

lemma old_total_frames_def (w h : ℤ) (fps dur : ℚ) :
    (estimate_storage_old_approach w h fps dur).total_frames = pyInt (fps * dur) := rfl

lemma old_frame_size_def (w h : ℤ) (fps dur : ℚ) :
    (estimate_storage_old_approach w h fps dur).frame_size_mb =
      ((w : ℚ) * (h : ℚ) * 3 * (12/10)) / (1024 * 1024) := rfl

lemma old_extracted_def (w h : ℤ) (fps dur : ℚ) :
    (estimate_storage_old_approach w h fps dur).extracted_frames_mb =
      (estimate_storage_old_approach w h fps dur).frame_size_mb *
        ((estimate_storage_old_approach w h fps dur).total_frames : ℚ) := rfl

lemma old_sbs_def (w h : ℤ) (fps dur : ℚ) :
    (estimate_storage_old_approach w h fps dur).sbs_frames_mb =
      ((estimate_storage_old_approach w h fps dur).frame_size_mb * 2) *
        ((estimate_storage_old_approach w h fps dur).total_frames : ℚ) := rfl

lemma old_peak_def (w h : ℤ) (fps dur : ℚ) :
    (estimate_storage_old_approach w h fps dur).total_peak_mb =
      (estimate_storage_old_approach w h fps dur).extracted_frames_mb +
        (estimate_storage_old_approach w h fps dur).sbs_frames_mb := rfl

lemma chunked_total_frames_def (w h : ℤ) (fps dur : ℚ) (cs : ℤ) :
    (estimate_storage_chunked_approach w h fps dur cs).total_frames = pyInt (fps * dur) := rfl

lemma chunked_total_chunks_def (w h : ℤ) (fps dur : ℚ) (cs : ℤ) :
    (estimate_storage_chunked_approach w h fps dur cs).total_chunks =
      Int.fdiv ((estimate_storage_chunked_approach w h fps dur cs).total_frames + cs - 1) cs := rfl

lemma chunked_chunk_size_def (w h : ℤ) (fps dur : ℚ) (cs : ℤ) :
    (estimate_storage_chunked_approach w h fps dur cs).chunk_size = cs := rfl

lemma chunked_frame_size_def (w h : ℤ) (fps dur : ℚ) (cs : ℤ) :
    (estimate_storage_chunked_approach w h fps dur cs).frame_size_mb =
      ((w : ℚ) * (h : ℚ) * 3 * (12/10)) / (1024 * 1024) := rfl

lemma chunked_peak_chunk_def (w h : ℤ) (fps dur : ℚ) (cs : ℤ) :
    (estimate_storage_chunked_approach w h fps dur cs).peak_chunk_mb =
      (estimate_storage_chunked_approach w h fps dur cs).frame_size_mb * (cs : ℚ) +
        ((estimate_storage_chunked_approach w h fps dur cs).frame_size_mb * 2) * (cs : ℚ) +
        (((estimate_storage_chunked_approach w h fps dur cs).frame_size_mb * 2) * (cs : ℚ)) *
          (1/10) := rfl

lemma chunked_max_videos_def (w h : ℤ) (fps dur : ℚ) (cs : ℤ) :
    (estimate_storage_chunked_approach w h fps dur cs).max_chunk_videos_mb =
      ((((estimate_storage_chunked_approach w h fps dur cs).frame_size_mb * 2) * (cs : ℚ)) *
          (1/10)) *
        ((estimate_storage_chunked_approach w h fps dur cs).total_chunks : ℚ) := rfl

lemma chunked_total_peak_def (w h : ℤ) (fps dur : ℚ) (cs : ℤ) :
    (estimate_storage_chunked_approach w h fps dur cs).total_peak_mb =
      max (estimate_storage_chunked_approach w h fps dur cs).peak_chunk_mb
        ((estimate_storage_chunked_approach w h fps dur cs).max_chunk_videos_mb +
          (estimate_storage_chunked_approach w h fps dur cs).max_chunk_videos_mb) := rfl

/-! Arithmetic helper lemmas about `pyInt` and the ceiling division at line 39. -/

lemma pyInt_of_nonneg {q : ℚ} (hq : 0 ≤ q) : pyInt q = ⌊q⌋ := by
  unfold pyInt
  rw [if_pos hq]

lemma pyInt_nonneg {q : ℚ} (hq : 0 ≤ q) : 0 ≤ pyInt q := by
  rw [pyInt_of_nonneg hq]
  exact Int.floor_nonneg.mpr hq

lemma ceil_div_mul_ge {tf cs : ℤ} (htf : 0 ≤ tf) (hcs : 1 ≤ cs) :
    tf ≤ Int.fdiv (tf + cs - 1) cs * cs := by
  rw [Int.fdiv_eq_ediv _ (by omega : (0:ℤ) ≤ cs)]
  have hmod := Int.ediv_add_emod (tf + cs - 1) cs
  have hlt := Int.emod_lt_of_pos (tf + cs - 1) (show (0:ℤ) < cs by omega)
  have hge := Int.emod_nonneg (tf + cs - 1) (show (cs:ℤ) ≠ 0 by omega)
  nlinarith [hmod, hlt, hge]

lemma ceil_div_pred_mul_lt {tf cs : ℤ} (htf : 0 ≤ tf) (hcs : 1 ≤ cs) :
    (Int.fdiv (tf + cs - 1) cs - 1) * cs < tf := by
  rw [Int.fdiv_eq_ediv _ (by omega : (0:ℤ) ≤ cs)]
  have hmod := Int.ediv_add_emod (tf + cs - 1) cs
  have hlt := Int.emod_lt_of_pos (tf + cs - 1) (show (0:ℤ) < cs by omega)
  have hge := Int.emod_nonneg (tf + cs - 1) (show (cs:ℤ) ≠ 0 by omega)
  nlinarith [hmod, hlt, hge]

lemma ceil_div_nonneg {tf cs : ℤ} (htf : 0 ≤ tf) (hcs : 1 ≤ cs) :
    0 ≤ Int.fdiv (tf + cs - 1) cs := by
  rw [Int.fdiv_eq_ediv _ (by omega : (0:ℤ) ≤ cs)]
  exact Int.ediv_nonneg (by omega) (by omega)

lemma ceil_div_antitone {tf c1 c2 : ℤ} (htf : 0 ≤ tf) (hc2 : 1 ≤ c2) (hcc : c2 ≤ c1) :
    Int.fdiv (tf + c1 - 1) c1 ≤ Int.fdiv (tf + c2 - 1) c2 := by
  have hc1 : 1 ≤ c1 := hc2.trans hcc
  have hA : tf ≤ Int.fdiv (tf + c2 - 1) c2 * c2 := ceil_div_mul_ge htf hc2
  have hB : (Int.fdiv (tf + c1 - 1) c1 - 1) * c1 < tf := ceil_div_pred_mul_lt htf hc1
  have hC : 0 ≤ Int.fdiv (tf + c2 - 1) c2 := ceil_div_nonneg htf hc2
  have hD : Int.fdiv (tf + c2 - 1) c2 * c2 ≤ Int.fdiv (tf + c2 - 1) c2 * c1 :=
    mul_le_mul_of_nonneg_left hcc hC
  have hE : (Int.fdiv (tf + c1 - 1) c1 - 1) * c1 < Int.fdiv (tf + c2 - 1) c2 * c1 := by
    linarith
  have := lt_of_mul_lt_mul_right hE (by omega : (0:ℤ) ≤ c1)
  omega

/-! Claim theorems. -/

/-- C4: for every input to the old-approach estimator, the returned record
satisfies `totalPeakMb = 3 * extractedFramesMb`, because
`sbsFramesMb = 2 * extractedFramesMb` and
`totalPeakMb = extractedFramesMb + sbsFramesMb`. -/
theorem old_total_peak_is_three_times_extracted (w h : ℤ) (fps dur : ℚ) :
    (estimate_storage_old_approach w h fps dur).total_peak_mb =
      3 * (estimate_storage_old_approach w h fps dur).extracted_frames_mb ∧
    (estimate_storage_old_approach w h fps dur).sbs_frames_mb =
      2 * (estimate_storage_old_approach w h fps dur).extracted_frames_mb ∧
    (estimate_storage_old_approach w h fps dur).total_peak_mb =
      (estimate_storage_old_approach w h fps dur).extracted_frames_mb +
        (estimate_storage_old_approach w h fps dur).sbs_frames_mb := by
  refine ⟨?_, ?_, old_peak_def w h fps dur⟩
  · rw [old_peak_def, old_sbs_def, old_extracted_def]
    ring
  · rw [old_sbs_def, old_extracted_def]
    ring

/-- C9: the chunked estimator's `frame_size_mb`, `chunk_size` and
`peak_chunk_mb` fields depend only on width, height and chunk size: two calls
agreeing on those three but differing in frame rate and/or duration return
equal values for the three fields. -/
theorem peak_fields_independent_of_rate_and_duration (w h cs : ℤ)
    (fps1 dur1 fps2 dur2 : ℚ) :
    (estimate_storage_chunked_approach w h fps1 dur1 cs).frame_size_mb =
      (estimate_storage_chunked_approach w h fps2 dur2 cs).frame_size_mb ∧
    (estimate_storage_chunked_approach w h fps1 dur1 cs).chunk_size =
      (estimate_storage_chunked_approach w h fps2 dur2 cs).chunk_size ∧
    (estimate_storage_chunked_approach w h fps1 dur1 cs).peak_chunk_mb =
      (estimate_storage_chunked_approach w h fps2 dur2 cs).peak_chunk_mb :=
  ⟨rfl, rfl, rfl⟩

/-- C2: for positive inputs with `chunkSize ≥ 1`, the chunked estimator
returns `totalPeakMb = max(peakChunkMb, maxChunkVideosMb + finalVideoMb)`
with `finalVideoMb = maxChunkVideosMb`,
`peakChunkMb = frameSizeMb*chunkSize + 2*frameSizeMb*chunkSize
+ 0.1*(2*frameSizeMb*chunkSize)`, and
`maxChunkVideosMb = 0.1*(2*frameSizeMb*chunkSize) * totalChunks`. -/
theorem chunked_estimate_refines_spec_formulas (w h : ℤ) (fps dur : ℚ) (cs : ℤ)
    (hw : 0 < w) (hh : 0 < h) (hfps : 0 < fps) (hdur : 0 < dur) (hcs : 1 ≤ cs) :
    (estimate_storage_chunked_approach w h fps dur cs).total_peak_mb =
      max (estimate_storage_chunked_approach w h fps dur cs).peak_chunk_mb
        ((estimate_storage_chunked_approach w h fps dur cs).max_chunk_videos_mb +
          (estimate_storage_chunked_approach w h fps dur cs).max_chunk_videos_mb) ∧
    (estimate_storage_chunked_approach w h fps dur cs).peak_chunk_mb =
      (estimate_storage_chunked_approach w h fps dur cs).frame_size_mb * (cs : ℚ) +
        2 * (estimate_storage_chunked_approach w h fps dur cs).frame_size_mb * (cs : ℚ) +
        (1/10) *
          (2 * (estimate_storage_chunked_approach w h fps dur cs).frame_size_mb * (cs : ℚ)) ∧
    (estimate_storage_chunked_approach w h fps dur cs).max_chunk_videos_mb =
      ((1/10) *
          (2 * (estimate_storage_chunked_approach w h fps dur cs).frame_size_mb * (cs : ℚ))) *
        ((estimate_storage_chunked_approach w h fps dur cs).total_chunks : ℚ) := by
  refine ⟨chunked_total_peak_def w h fps dur cs, ?_, ?_⟩
  · rw [chunked_peak_chunk_def]
    ring
  · rw [chunked_max_videos_def]
    ring

/-- C2 witness: the refinement equalities instantiated at the first
documented scenario (1920x1080, 30 fps, 600 s, chunk size 100). -/
theorem chunked_estimate_refines_spec_formulas_witness :
    (estimate_storage_chunked_approach 1920 1080 30 600 100).total_peak_mb =
      max (estimate_storage_chunked_approach 1920 1080 30 600 100).peak_chunk_mb
        ((estimate_storage_chunked_approach 1920 1080 30 600 100).max_chunk_videos_mb +
          (estimate_storage_chunked_approach 1920 1080 30 600 100).max_chunk_videos_mb) ∧
    (estimate_storage_chunked_approach 1920 1080 30 600 100).peak_chunk_mb =
      (estimate_storage_chunked_approach 1920 1080 30 600 100).frame_size_mb * ((100:ℤ) : ℚ) +
        2 * (estimate_storage_chunked_approach 1920 1080 30 600 100).frame_size_mb *
          ((100:ℤ) : ℚ) +
        (1/10) *
          (2 * (estimate_storage_chunked_approach 1920 1080 30 600 100).frame_size_mb *
            ((100:ℤ) : ℚ)) ∧
    (estimate_storage_chunked_approach 1920 1080 30 600 100).max_chunk_videos_mb =
      ((1/10) *
          (2 * (estimate_storage_chunked_approach 1920 1080 30 600 100).frame_size_mb *
            ((100:ℤ) : ℚ))) *
        ((estimate_storage_chunked_approach 1920 1080 30 600 100).total_chunks : ℚ) :=
  chunked_estimate_refines_spec_formulas 1920 1080 30 600 100
    (by norm_num) (by norm_num) (by norm_num) (by norm_num) (by norm_num)

/-- C7: both estimators compute `totalFrames = ⌊frameRate * durationSeconds⌋`
(truncating integer conversion, which for a positive product is the floor);
in particular at 30 fps for 600 s this is 18000. -/
theorem total_frames_is_floor_of_product (w h cs : ℤ) (fps dur : ℚ)
    (hfps : 0 < fps) (hdur : 0 < dur) :
    (estimate_storage_old_approach w h fps dur).total_frames = ⌊fps * dur⌋ ∧
    (estimate_storage_chunked_approach w h fps dur cs).total_frames = ⌊fps * dur⌋ := by
  have hq : (0:ℚ) ≤ fps * dur := (mul_pos hfps hdur).le
  rw [old_total_frames_def, chunked_total_frames_def, pyInt_of_nonneg hq]
  exact ⟨rfl, rfl⟩

/-- C7 witness: at 30 fps and 600 s (scenario one) both estimators report
exactly 18000 total frames. -/
theorem total_frames_is_floor_of_product_witness :
    (estimate_storage_old_approach 1920 1080 30 600).total_frames = 18000 ∧
    (estimate_storage_chunked_approach 1920 1080 30 600 100).total_frames = 18000 := by
  have h := total_frames_is_floor_of_product 1920 1080 100 30 600 (by norm_num) (by norm_num)
  have hf : ⌊(30:ℚ) * 600⌋ = 18000 := by norm_num
  exact ⟨h.1.trans hf, h.2.trans hf⟩

/-- C8: for `chunkSize ≥ 1` the ceiling division at line 39 cannot divide by
zero: the fallible estimator returns `some` of the total estimator's value
(it returns `none` precisely on the `ZeroDivisionError` input `chunkSize = 0`). -/
theorem chunked_checked_succeeds_for_positive_chunk_size (w h : ℤ) (fps dur : ℚ)
    (cs : ℤ) (hcs : 1 ≤ cs) :
    estimate_storage_chunked_checked w h fps dur cs =
      some (estimate_storage_chunked_approach w h fps dur cs) := by
  unfold estimate_storage_chunked_checked
  rw [if_neg (by omega)]

/-- C8 witness: at the first documented scenario with chunk size 100 the
fallible estimator returns normally. -/
theorem chunked_checked_succeeds_for_positive_chunk_size_witness :
    estimate_storage_chunked_checked 1920 1080 30 600 100 =
      some (estimate_storage_chunked_approach 1920 1080 30 600 100) :=
  chunked_checked_succeeds_for_positive_chunk_size 1920 1080 30 600 100 (by norm_num)

/-- C5: for a nonnegative frame count and `chunkSize ≥ 1`, the chunked
estimator's `totalChunks` is the integer ceiling of
`totalFrames / chunkSize`: `totalChunks * chunkSize ≥ totalFrames` and
`(totalChunks - 1) * chunkSize < totalFrames`. -/
theorem total_chunks_is_ceiling_division (w h cs : ℤ) (fps dur : ℚ)
    (hq : 0 ≤ fps * dur) (hcs : 1 ≤ cs) :
    (estimate_storage_chunked_approach w h fps dur cs).total_frames ≤
      (estimate_storage_chunked_approach w h fps dur cs).total_chunks * cs ∧
    ((estimate_storage_chunked_approach w h fps dur cs).total_chunks - 1) * cs <
      (estimate_storage_chunked_approach w h fps dur cs).total_frames := by
  rw [chunked_total_chunks_def, chunked_total_frames_def]
  have htf : 0 ≤ pyInt (fps * dur) := pyInt_nonneg hq
  exact ⟨ceil_div_mul_ge htf hcs, ceil_div_pred_mul_lt htf hcs⟩

/-- C5 witness: the ceiling-division bracketing at the first documented
scenario with chunk size 100 (18000 frames, 180 chunks). -/
theorem total_chunks_is_ceiling_division_witness :
    (estimate_storage_chunked_approach 1920 1080 30 600 100).total_frames ≤
      (estimate_storage_chunked_approach 1920 1080 30 600 100).total_chunks * 100 ∧
    ((estimate_storage_chunked_approach 1920 1080 30 600 100).total_chunks - 1) * 100 <
      (estimate_storage_chunked_approach 1920 1080 30 600 100).total_frames :=
  total_chunks_is_ceiling_division 1920 1080 100 30 600 (by norm_num) (by norm_num)

/-- C6: for a fixed positive profile and chunk sizes `1 ≤ c2 ≤ c1`,
shrinking the chunk size does not increase `peakChunkMb` and does not
decrease `totalChunks`. -/
theorem chunk_size_monotonicity (w h : ℤ) (fps dur : ℚ) (c1 c2 : ℤ)
    (hw : 0 < w) (hh : 0 < h) (hfps : 0 < fps) (hdur : 0 < dur)
    (hc2 : 1 ≤ c2) (hcc : c2 ≤ c1) :
    (estimate_storage_chunked_approach w h fps dur c2).peak_chunk_mb ≤
      (estimate_storage_chunked_approach w h fps dur c1).peak_chunk_mb ∧
    (estimate_storage_chunked_approach w h fps dur c1).total_chunks ≤
      (estimate_storage_chunked_approach w h fps dur c2).total_chunks := by
  constructor
  · rw [chunked_peak_chunk_def w h fps dur c1, chunked_peak_chunk_def w h fps dur c2,
      chunked_frame_size_def w h fps dur c1, chunked_frame_size_def w h fps dur c2]
    have hw' : (0:ℚ) ≤ (w : ℚ) := by exact_mod_cast hw.le
    have hh' : (0:ℚ) ≤ (h : ℚ) := by exact_mod_cast hh.le
    have hf : (0:ℚ) ≤ ((w : ℚ) * (h : ℚ) * 3 * (12/10)) / (1024 * 1024) := by
      apply div_nonneg _ (by norm_num)
      exact mul_nonneg (mul_nonneg (mul_nonneg hw' hh') (by norm_num)) (by norm_num)
    have hcc' : ((c2 : ℤ) : ℚ) ≤ ((c1 : ℤ) : ℚ) := by exact_mod_cast hcc
    nlinarith [mul_nonneg hf (sub_nonneg.mpr hcc')]
  · rw [chunked_total_chunks_def w h fps dur c1, chunked_total_chunks_def w h fps dur c2,
      chunked_total_frames_def, chunked_total_frames_def]
    exact ceil_div_antitone (pyInt_nonneg (mul_pos hfps hdur).le) hc2 hcc

/-- C6 witness: the monotonicity at the first documented scenario for the two
chunk sizes used by the reporter, 100 and 50. -/
theorem chunk_size_monotonicity_witness :
    (estimate_storage_chunked_approach 1920 1080 30 600 50).peak_chunk_mb ≤
      (estimate_storage_chunked_approach 1920 1080 30 600 100).peak_chunk_mb ∧
    (estimate_storage_chunked_approach 1920 1080 30 600 100).total_chunks ≤
      (estimate_storage_chunked_approach 1920 1080 30 600 50).total_chunks :=
  chunk_size_monotonicity 1920 1080 30 600 100 50
    (by norm_num) (by norm_num) (by norm_num) (by norm_num) (by norm_num) (by norm_num)

/-- C10: when the frame count floors to zero on a positive profile, the
chunked estimator reports zero chunks and zero chunk-video storage yet a
strictly positive `totalPeakMb` equal to `peakChunkMb = 3.2 * frameSizeMb *
chunkSize`, while the old-approach estimator reports `totalPeakMb = 0`. -/
theorem zero_frames_edge_case (w h cs : ℤ) (fps dur : ℚ)
    (hw : 0 < w) (hh : 0 < h) (hcs : 1 ≤ cs)
    (hq : 0 ≤ fps * dur) (h0 : ⌊fps * dur⌋ = 0) :
    (estimate_storage_chunked_approach w h fps dur cs).total_chunks = 0 ∧
    (estimate_storage_chunked_approach w h fps dur cs).max_chunk_videos_mb = 0 ∧
    (estimate_storage_chunked_approach w h fps dur cs).total_peak_mb =
      (estimate_storage_chunked_approach w h fps dur cs).peak_chunk_mb ∧
    (estimate_storage_chunked_approach w h fps dur cs).peak_chunk_mb =
      (16/5) * (estimate_storage_chunked_approach w h fps dur cs).frame_size_mb * (cs : ℚ) ∧
    0 < (estimate_storage_chunked_approach w h fps dur cs).total_peak_mb ∧
    (estimate_storage_old_approach w h fps dur).total_peak_mb = 0 := by
  have htf : pyInt (fps * dur) = 0 := by rw [pyInt_of_nonneg hq, h0]
  have htc : (estimate_storage_chunked_approach w h fps dur cs).total_chunks = 0 := by
    rw [chunked_total_chunks_def, chunked_total_frames_def, htf,
      Int.fdiv_eq_ediv _ (by omega : (0:ℤ) ≤ cs)]
    exact Int.ediv_eq_zero_of_lt (by omega) (by omega)
  have hw' : (0:ℚ) < (w : ℚ) := by exact_mod_cast hw
  have hh' : (0:ℚ) < (h : ℚ) := by exact_mod_cast hh
  have hf : (0:ℚ) < (estimate_storage_chunked_approach w h fps dur cs).frame_size_mb := by
    rw [chunked_frame_size_def]
    apply div_pos _ (by norm_num)
    exact mul_pos (mul_pos (mul_pos hw' hh') (by norm_num)) (by norm_num)
  have hcs' : (1:ℚ) ≤ ((cs : ℤ) : ℚ) := by exact_mod_cast hcs
  have hmv : (estimate_storage_chunked_approach w h fps dur cs).max_chunk_videos_mb = 0 := by
    rw [chunked_max_videos_def, htc]
    norm_num
  have hpk : (estimate_storage_chunked_approach w h fps dur cs).peak_chunk_mb =
      (16/5) * (estimate_storage_chunked_approach w h fps dur cs).frame_size_mb * (cs : ℚ) := by
    rw [chunked_peak_chunk_def]
    ring
  have hpkpos : 0 < (estimate_storage_chunked_approach w h fps dur cs).peak_chunk_mb := by
    rw [hpk]
    nlinarith
  have htp : (estimate_storage_chunked_approach w h fps dur cs).total_peak_mb =
      (estimate_storage_chunked_approach w h fps dur cs).peak_chunk_mb := by
    rw [chunked_total_peak_def, hmv]
    exact max_eq_left (by linarith)
  refine ⟨htc, hmv, htp, hpk, ?_, ?_⟩
  · rw [htp]
    exact hpkpos
  · rw [old_peak_def, old_extracted_def, old_sbs_def, old_total_frames_def, htf]
    norm_num

/-- C10 witness: at width 1, height 1, 1/2 fps for 1 second with chunk size 1,
the chunked estimator reports zero chunks yet positive peak storage while the
old estimator reports zero. -/
theorem zero_frames_edge_case_witness :
    (estimate_storage_chunked_approach 1 1 (1/2) 1 1).total_chunks = 0 ∧
    (estimate_storage_chunked_approach 1 1 (1/2) 1 1).max_chunk_videos_mb = 0 ∧
    (estimate_storage_chunked_approach 1 1 (1/2) 1 1).total_peak_mb =
      (estimate_storage_chunked_approach 1 1 (1/2) 1 1).peak_chunk_mb ∧
    (estimate_storage_chunked_approach 1 1 (1/2) 1 1).peak_chunk_mb =
      (16/5) * (estimate_storage_chunked_approach 1 1 (1/2) 1 1).frame_size_mb * ((1:ℤ) : ℚ) ∧
    0 < (estimate_storage_chunked_approach 1 1 (1/2) 1 1).total_peak_mb ∧
    (estimate_storage_old_approach 1 1 (1/2) 1).total_peak_mb = 0 :=
  zero_frames_edge_case 1 1 1 (1/2) 1
    (by norm_num) (by norm_num) (by norm_num) (by norm_num) (by norm_num)

/-- C3 counterexample: at 1920x1080 the frame size computed by the formula
`(1920*1080*3*1.2)/(1024*1024)` is exactly 7.119140625 MB, which is NOT
within 0.01 of 7.13 (the gap is 0.010859375). -/
theorem frame_size_1080p_not_within_claimed_tolerance :
    ¬ (|(estimate_storage_old_approach 1920 1080 30 600).frame_size_mb - 713/100| ≤
        1/100) := by
  rw [old_frame_size_def]
  rw [abs_le]
  norm_num

/-- C3 amended: the frame size at 1920x1080 (from either estimator, for any
frame rate, duration and chunk size) equals 7.13 MB to within an absolute
tolerance of 0.011; its exact value is 7.119140625 MB. -/
theorem frame_size_1080p_within_amended_tolerance (fps dur : ℚ) (cs : ℤ) :
    |(estimate_storage_old_approach 1920 1080 fps dur).frame_size_mb - 713/100| ≤
        11/1000 ∧
    |(estimate_storage_chunked_approach 1920 1080 fps dur cs).frame_size_mb - 713/100| ≤
        11/1000 ∧
    (estimate_storage_old_approach 1920 1080 fps dur).frame_size_mb = 7464960/1048576 ∧
    (estimate_storage_chunked_approach 1920 1080 fps dur cs).frame_size_mb =
      7464960/1048576 := by
  rw [old_frame_size_def, chunked_frame_size_def]
  norm_num [abs_le]

/-- C1: in each of the four documented scenarios (1920x1080 30fps 600s;
3840x2160 30fps 600s; 3840x2160 60fps 600s; 1920x1080 30fps 3600s), and for
both chunk sizes used by the reporter (100 and 50), the chunked estimator's
`totalPeakMb` is strictly less than the old approach's, and the printed
savings percentage `(old - new)/old * 100` is strictly positive. -/
theorem chunked_beats_old_in_all_scenarios :
    ((estimate_storage_chunked_approach 1920 1080 30 600 100).total_peak_mb <
        (estimate_storage_old_approach 1920 1080 30 600).total_peak_mb ∧
      0 < savings_percent (estimate_storage_old_approach 1920 1080 30 600).total_peak_mb
        (estimate_storage_chunked_approach 1920 1080 30 600 100).total_peak_mb) ∧
    ((estimate_storage_chunked_approach 1920 1080 30 600 50).total_peak_mb <
        (estimate_storage_old_approach 1920 1080 30 600).total_peak_mb ∧
      0 < savings_percent (estimate_storage_old_approach 1920 1080 30 600).total_peak_mb
        (estimate_storage_chunked_approach 1920 1080 30 600 50).total_peak_mb) ∧
    ((estimate_storage_chunked_approach 3840 2160 30 600 100).total_peak_mb <
        (estimate_storage_old_approach 3840 2160 30 600).total_peak_mb ∧
      0 < savings_percent (estimate_storage_old_approach 3840 2160 30 600).total_peak_mb
        (estimate_storage_chunked_approach 3840 2160 30 600 100).total_peak_mb) ∧
    ((estimate_storage_chunked_approach 3840 2160 30 600 50).total_peak_mb <
        (estimate_storage_old_approach 3840 2160 30 600).total_peak_mb ∧
      0 < savings_percent (estimate_storage_old_approach 3840 2160 30 600).total_peak_mb
        (estimate_storage_chunked_approach 3840 2160 30 600 50).total_peak_mb) ∧
    ((estimate_storage_chunked_approach 3840 2160 60 600 100).total_peak_mb <
        (estimate_storage_old_approach 3840 2160 60 600).total_peak_mb ∧
      0 < savings_percent (estimate_storage_old_approach 3840 2160 60 600).total_peak_mb
        (estimate_storage_chunked_approach 3840 2160 60 600 100).total_peak_mb) ∧
    ((estimate_storage_chunked_approach 3840 2160 60 600 50).total_peak_mb <
        (estimate_storage_old_approach 3840 2160 60 600).total_peak_mb ∧
      0 < savings_percent (estimate_storage_old_approach 3840 2160 60 600).total_peak_mb
        (estimate_storage_chunked_approach 3840 2160 60 600 50).total_peak_mb) ∧
    ((estimate_storage_chunked_approach 1920 1080 30 3600 100).total_peak_mb <
        (estimate_storage_old_approach 1920 1080 30 3600).total_peak_mb ∧
      0 < savings_percent (estimate_storage_old_approach 1920 1080 30 3600).total_peak_mb
        (estimate_storage_chunked_approach 1920 1080 30 3600 100).total_peak_mb) ∧
    ((estimate_storage_chunked_approach 1920 1080 30 3600 50).total_peak_mb <
        (estimate_storage_old_approach 1920 1080 30 3600).total_peak_mb ∧
      0 < savings_percent (estimate_storage_old_approach 1920 1080 30 3600).total_peak_mb
        (estimate_storage_chunked_approach 1920 1080 30 3600 50).total_peak_mb) := by
  have p1 : pyInt ((30:ℚ) * 600) = 18000 := by norm_num [pyInt]
  have p3 : pyInt ((60:ℚ) * 600) = 36000 := by norm_num [pyInt]
  have p4 : pyInt ((30:ℚ) * 3600) = 108000 := by norm_num [pyInt]
  have q1 : Int.fdiv ((18000:ℤ) + 100 - 1) 100 = 180 := by decide
  have q2 : Int.fdiv ((18000:ℤ) + 50 - 1) 50 = 360 := by decide
  have q3 : Int.fdiv ((36000:ℤ) + 100 - 1) 100 = 360 := by decide
  have q4 : Int.fdiv ((36000:ℤ) + 50 - 1) 50 = 720 := by decide
  have q5 : Int.fdiv ((108000:ℤ) + 100 - 1) 100 = 1080 := by decide
  have q6 : Int.fdiv ((108000:ℤ) + 50 - 1) 50 = 2160 := by decide
  refine ⟨?_, ?_, ?_, ?_, ?_, ?_, ?_, ?_⟩ <;>
    · simp only [savings_percent, chunked_total_peak_def, chunked_peak_chunk_def,
        chunked_max_videos_def, chunked_frame_size_def, chunked_total_chunks_def,
        chunked_total_frames_def, old_peak_def, old_extracted_def, old_sbs_def,
        old_frame_size_def, old_total_frames_def, p1, p3, p4, q1, q2, q3, q4, q5, q6]
      norm_num
